import Mathlib

/-!
Verification development for the `mcps` crate (an MCP / JSON-RPC 2.0 runtime).

The definitions below are a shallow embedding, in Lean, of the Rust source:
  * `src/schema/schema.rs` and `src/schema/json_rpc.rs` — the JSON-RPC data
    model and its serde encoding/decoding (untagged enums, camelCase fields,
    `skip_serializing_if = "Option::is_none"` options);
  * `src/client.rs` — the client's pending-response cache and the
    receive/poll path of `call_tool`;
  * `src/support/shared_memory.rs` — the SPSC ring buffer (`write`,
    `read_timeout`);
  * `src/support/sessons.rs` — the expiring session store;
  * `src/server.rs` — `send_log`, `check_state`, `register_tool_handler`
    and the `handle_message` dispatcher.

Machine integers (`usize`, `i64`) are modelled as `Nat`/`Int`; the programs
never rely on overflow on the verified paths.  Wall-clock time is passed as
an explicit parameter.  Fallible operations return `Except`/`Option`.
-/

namespace Mcps

/-! ## JSON values

Model of `serde_json::Value`.  Numbers are modelled as integers: every
number the runtime itself produces (ids, error codes) is an integer, and
none of the verified properties depends on float semantics. -/

inductive Json where
  | null : Json
  | bool : Bool → Json
  | num : Int → Json
  | str : String → Json
  | arr : List Json → Json
  | obj : List (String × Json) → Json

/-- Field lookup in an encoded JSON object, as serde's derived
deserializer sees a (duplicate-free) map. -/
def jlookup (key : String) : List (String × Json) → Option Json
  | [] => none
  | (k, v) :: rest => if k = key then some v else jlookup key rest

/-! ## JSON-RPC message model (`src/schema/schema.rs` lines 150-190, 1208-1216,
also duplicated in `src/schema/json_rpc.rs` lines 29-99). -/

/-- `RequestId`: untagged `String | Number(i64)`. -/
inductive RequestId where
  | string : String → RequestId
  | number : Int → RequestId
deriving DecidableEq

structure JSONRPCRequest where
  jsonrpc : String
  id : RequestId
  method : String
  params : Option Json

structure JSONRPCNotification where
  jsonrpc : String
  method : String
  params : Option Json

structure JSONRPCResponse where
  jsonrpc : String
  id : RequestId
  result : Json

structure JSONRPCErrorObject where
  code : Int
  message : String
  data : Option Json

structure JSONRPCError where
  jsonrpc : String
  id : RequestId
  error : JSONRPCErrorObject

/-- `JSONRPCMessage`: serde `untagged` enum, variants tried in declaration
order on deserialization. -/
inductive JSONRPCMessage where
  | request : JSONRPCRequest → JSONRPCMessage
  | notification : JSONRPCNotification → JSONRPCMessage
  | response : JSONRPCResponse → JSONRPCMessage
  | error : JSONRPCError → JSONRPCMessage

/-! ## Encoder

serde's `Serialize` derive emits struct fields in declaration order and
omits an `Option` field that is `None` (`skip_serializing_if`); a `Some v`
field is emitted as the serialization of `v` — in particular
`Some(Value::Null)` is emitted as JSON `null`. -/

def encodeId : RequestId → Json
  | .string s => .str s
  | .number n => .num n

/-- An optional struct field: omitted when `None`. -/
def optField (name : String) : Option Json → List (String × Json)
  | none => []
  | some v => [(name, v)]

def encodeRequest (r : JSONRPCRequest) : Json :=
  .obj ([("jsonrpc", .str r.jsonrpc), ("id", encodeId r.id),
         ("method", .str r.method)] ++ optField "params" r.params)

def encodeNotification (n : JSONRPCNotification) : Json :=
  .obj ([("jsonrpc", .str n.jsonrpc), ("method", .str n.method)] ++
        optField "params" n.params)

def encodeResponse (r : JSONRPCResponse) : Json :=
  .obj [("jsonrpc", .str r.jsonrpc), ("id", encodeId r.id),
        ("result", r.result)]

def encodeErrorObject (e : JSONRPCErrorObject) : Json :=
  .obj ([("code", .num e.code), ("message", .str e.message)] ++
        optField "data" e.data)

def encodeError (e : JSONRPCError) : Json :=
  .obj [("jsonrpc", .str e.jsonrpc), ("id", encodeId e.id),
        ("error", encodeErrorObject e.error)]

def encodeMsg : JSONRPCMessage → Json
  | .request r => encodeRequest r
  | .notification n => encodeNotification n
  | .response r => encodeResponse r
  | .error e => encodeError e

/-! ## Decoder

serde's untagged `Deserialize` tries the variants in order.  A derived
struct deserializer requires every non-`Option` field to be present with
the right shape, ignores unknown fields, and maps a missing or `null`
`Option` field to `None` (so `null` for `params: Option<Value>` decodes to
`None`, not `Some(Null)`). -/

def getStr : Json → Option String
  | .str s => some s
  | _ => none

def decodeId : Json → Option RequestId
  | .str s => some (.string s)
  | .num n => some (.number n)
  | _ => none

/-- Decoding of an `Option<Value>` struct field from its lookup result. -/
def decodeOptValue : Option Json → Option Json
  | none => none
  | some .null => none
  | some v => some v

def decodeRequest (j : Json) : Option JSONRPCRequest :=
  match j with
  | .obj fields => do
    let jr ← (jlookup "jsonrpc" fields).bind getStr
    let id ← (jlookup "id" fields).bind decodeId
    let m ← (jlookup "method" fields).bind getStr
    pure ⟨jr, id, m, decodeOptValue (jlookup "params" fields)⟩
  | _ => none

def decodeNotification (j : Json) : Option JSONRPCNotification :=
  match j with
  | .obj fields => do
    let jr ← (jlookup "jsonrpc" fields).bind getStr
    let m ← (jlookup "method" fields).bind getStr
    pure ⟨jr, m, decodeOptValue (jlookup "params" fields)⟩
  | _ => none

def decodeResponse (j : Json) : Option JSONRPCResponse :=
  match j with
  | .obj fields => do
    let jr ← (jlookup "jsonrpc" fields).bind getStr
    let id ← (jlookup "id" fields).bind decodeId
    let res ← jlookup "result" fields
    pure ⟨jr, id, res⟩
  | _ => none

def decodeErrorObject (j : Json) : Option JSONRPCErrorObject :=
  match j with
  | .obj fields => do
    let code ← jlookup "code" fields
    let code ← match code with | .num n => some n | _ => none
    let msg ← (jlookup "message" fields).bind getStr
    pure ⟨code, msg, decodeOptValue (jlookup "data" fields)⟩
  | _ => none

def decodeError (j : Json) : Option JSONRPCError :=
  match j with
  | .obj fields => do
    let jr ← (jlookup "jsonrpc" fields).bind getStr
    let id ← (jlookup "id" fields).bind decodeId
    let eo ← (jlookup "error" fields).bind decodeErrorObject
    pure ⟨jr, id, eo⟩
  | _ => none

def decodeMsg (j : Json) : Option JSONRPCMessage :=
  match decodeRequest j with
  | some r => some (.request r)
  | none =>
    match decodeNotification j with
    | some n => some (.notification n)
    | none =>
      match decodeResponse j with
      | some r => some (.response r)
      | none =>
        match decodeError j with
        | some e => some (.error e)
        | none => none

/-! ## C7: codec round trip -/

theorem decodeId_encodeId (i : RequestId) : decodeId (encodeId i) = some i := by
  cases i <;> rfl

/-- No optional field of the message holds the JSON value `null`
(serde turns `Some(Value::Null)` into the same wire bytes as `None`). -/
def noNullOpt : JSONRPCMessage → Prop
  | .request r => r.params ≠ some .null
  | .notification n => n.params ≠ some .null
  | .response _ => True
  | .error e => e.error.data ≠ some .null

/-- C7 (counterexample): the round trip fails as stated: a `Request` whose
`params` is `Some(Value::Null)` is encoded with `"params": null`, which
decodes back to a `Request` with `params = None`. -/
theorem decode_encode_some_null_counterexample :
    decodeMsg (encodeMsg (.request ⟨"2.0", .number 1, "ping", some .null⟩)) ≠
      some (.request ⟨"2.0", .number 1, "ping", some .null⟩) := by
  have h : decodeMsg (encodeMsg (.request ⟨"2.0", .number 1, "ping", some .null⟩)) =
      some (.request ⟨"2.0", .number 1, "ping", none⟩) := rfl
  rw [h]
  simp

/-- C7 (amended): for every `JSONRPCMessage` in which no optional field
(`params` of a request/notification, `data` of an error object) holds the
JSON value `null`, decoding the encoding yields the message again; absent
optional fields are omitted from the encoding and request ids keep their
String vs Number variant through the round trip. -/
theorem decode_encode_roundtrip (m : JSONRPCMessage) (h : noNullOpt m) :
    decodeMsg (encodeMsg m) = some m := by
  cases m with
  | request r =>
    obtain ⟨jr, id, mth, p⟩ := r
    cases p with
    | none =>
      simp [decodeMsg, decodeRequest, encodeMsg, encodeRequest, jlookup,
        optField, getStr, decodeOptValue, decodeId_encodeId]
    | some v =>
      cases v <;>
        simp_all [noNullOpt, decodeMsg, decodeRequest, encodeMsg, encodeRequest,
          jlookup, optField, getStr, decodeOptValue, decodeId_encodeId]
  | notification n =>
    obtain ⟨jr, mth, p⟩ := n
    cases p with
    | none =>
      simp [decodeMsg, decodeRequest, decodeNotification, encodeMsg,
        encodeNotification, jlookup, optField, getStr, decodeOptValue]
    | some v =>
      cases v <;>
        simp_all [noNullOpt, decodeMsg, decodeRequest, decodeNotification,
          encodeMsg, encodeNotification, jlookup, optField, getStr,
          decodeOptValue]
  | response r =>
    obtain ⟨jr, id, res⟩ := r
    simp [decodeMsg, decodeRequest, decodeNotification, decodeResponse,
      encodeMsg, encodeResponse, jlookup, getStr, decodeId_encodeId]
  | error e =>
    obtain ⟨jr, id, ⟨code, msg, d⟩⟩ := e
    cases d with
    | none =>
      simp [decodeMsg, decodeRequest, decodeNotification, decodeResponse,
        decodeError, decodeErrorObject, encodeMsg, encodeError,
        encodeErrorObject, jlookup, optField, getStr, decodeOptValue,
        decodeId_encodeId]
    | some v =>
      cases v <;>
        simp_all [noNullOpt, decodeMsg, decodeRequest, decodeNotification,
          decodeResponse, decodeError, decodeErrorObject, encodeMsg,
          encodeError, encodeErrorObject, jlookup, optField, getStr,
          decodeOptValue, decodeId_encodeId]

/-- Witness for C7's amended round trip at a concrete message. -/
theorem decode_encode_roundtrip_witness :
    decodeMsg (encodeMsg (.request ⟨"2.0", .string "a", "tools/list",
        some (.obj [("cursor", .num 0)])⟩)) =
      some (.request ⟨"2.0", .string "a", "tools/list",
        some (.obj [("cursor", .num 0)])⟩) :=
  decode_encode_roundtrip _ (by simp [noNullOpt])

/-! ## Client pending-response cache (`src/client.rs`)

The cache is `Arc<Mutex<Vec<JSONRPCMessage>>>`.  A `Vec` is modelled as a
`List` with the same end as the `Vec`'s end: `push` appends at the tail,
`Vec::pop` removes from the tail. -/

namespace Client

/-- `Client::cached_response` (client.rs line 64-67): `Vec::push`. -/
def cached_response (cache : List JSONRPCMessage) (m : JSONRPCMessage) :
    List JSONRPCMessage :=
  cache ++ [m]

/-- `Client::pop_response` (client.rs line 69-71): `Vec::pop`, which removes
and returns the LAST element. -/
def pop_response (cache : List JSONRPCMessage) :
    Option JSONRPCMessage × List JSONRPCMessage :=
  match cache.getLast? with
  | none => (none, cache)
  | some m => (some m, cache.dropLast)

/-- `Client::try_recieve` (client.rs line 202-209). -/
def try_recieve (cache : List JSONRPCMessage) :
    Except String (JSONRPCMessage × List JSONRPCMessage) :=
  match pop_response cache with
  | (some m, cache') => .ok (m, cache')
  | (none, _) => .error "No cached message"

/-- `Client::recieve_with_timeout` (client.rs line 173-200), viewed over the
cache contents at the first poll at which the cache is non-empty.  If no
message ever arrives, the bounded mode returns `Transport("Timeout")` after
the deadline (the unbounded mode polls forever). -/
def recieve_with_timeout (cache : List JSONRPCMessage) :
    Except String (JSONRPCMessage × List JSONRPCMessage) :=
  match try_recieve cache with
  | .ok r => .ok r
  | .error _ => .error "Timeout"

/-- Outcome of the receive half of `Client::call_tool`
(client.rs line 307-319).  `assertFailed` models the
`assert_eq!(resp.id, request_id)` panic.  `ok` carries the raw
`resp.result` value (the subsequent `serde_json::from_value` into
`CallToolResult` does not depend on the id). -/
inductive ToolCallOutcome where
  | ok : Json → ToolCallOutcome
  | protocolError : String → ToolCallOutcome
  | assertFailed : ToolCallOutcome
  | timeout : ToolCallOutcome

/-- The receive half of `Client::call_tool` with pending request id `k`:
wait for any cached message, then match on its variant.  Returns the
outcome together with the cache left behind. -/
def call_tool_receive (k : RequestId) (cache : List JSONRPCMessage) :
    ToolCallOutcome × List JSONRPCMessage :=
  match recieve_with_timeout cache with
  | .error _ => (.timeout, cache)
  | .ok (m, cache') =>
    match m with
    | .response r =>
      if r.id = k then (.ok r.result, cache') else (.assertFailed, cache')
    | .error _ => (.protocolError "Tool call failed", cache')
    | _ => (.protocolError "Unexpected response type", cache')

end Client

/-! ## C5: the pending-response cache is claimed FIFO -/

/-- C5 (counterexample): after caching `a` then `b`, `try_recieve` returns
`b` — the newest message, not the head `a`.  The claim that `try_receive`
removes and returns the message at the head is false. -/
theorem try_recieve_not_fifo_counterexample :
    Client.try_recieve
        (Client.cached_response
          (Client.cached_response []
            (.response ⟨"2.0", .number 1, .null⟩))
          (.response ⟨"2.0", .number 2, .null⟩)) =
      .ok (.response ⟨"2.0", .number 2, .null⟩,
           [.response ⟨"2.0", .number 1, .null⟩]) ∧
    (JSONRPCMessage.response ⟨"2.0", .number 2, .null⟩) ≠
      .response ⟨"2.0", .number 1, .null⟩ := by
  constructor
  · rfl
  · simp

/-- C5 (amended): received Response/Error messages are appended in arrival
order, and `try_recieve` removes and returns the message at the TAIL — the
most recently cached message (a LIFO stack, via `Vec::pop`); on an empty
cache it fails. -/
theorem try_recieve_pops_newest (cache : List JSONRPCMessage)
    (m : JSONRPCMessage) :
    Client.try_recieve (Client.cached_response cache m) = .ok (m, cache) ∧
    Client.try_recieve [] = .error "No cached message" := by
  constructor
  · simp [Client.try_recieve, Client.pop_response, Client.cached_response,
      List.getLast?_append, List.dropLast_append_of_ne_nil]
  · rfl

/-! ## C2: id matching in the client receive path -/

/-- C2 (counterexample): with request id 1 pending and the cache holding a
single Response whose id is 2, `call_tool`'s receive path pops that
response — the non-matching message is REMOVED from the cache (not
retained), and the call dies on `assert_eq!(resp.id, request_id)` instead
of polling on for the matching id. -/
theorem call_tool_receive_mismatch_counterexample :
    Client.call_tool_receive (.number 1)
        [.response ⟨"2.0", .number 2, .null⟩] =
      (.assertFailed, []) := by
  rfl

/-- C2 (amended): the client polls the cache until ANY message is present
(or the timeout elapses); the popped message is the most recently cached
one and is removed regardless of its id.  For a popped Response, an id
mismatch aborts the call through an assertion failure — a wrong result is
never returned — while a matching id yields the result; a popped Error is
returned to the caller as a protocol failure without any id check; an
empty cache times out. -/
theorem call_tool_receive_cases (k : RequestId)
    (cache : List JSONRPCMessage) (r : JSONRPCResponse)
    (e : JSONRPCError) :
    Client.call_tool_receive k (cache ++ [.response r]) =
      (if r.id = k then .ok r.result else .assertFailed, cache) ∧
    Client.call_tool_receive k (cache ++ [.error e]) =
      (.protocolError "Tool call failed", cache) ∧
    Client.call_tool_receive k [] = (.timeout, []) := by
  refine ⟨?_, ?_, rfl⟩ <;>
    simp [Client.call_tool_receive, Client.recieve_with_timeout,
      Client.try_recieve, Client.pop_response, List.getLast?_append,
      List.dropLast_append_of_ne_nil, apply_ite (fun o => (o, cache))]

/-! ## Shared-memory ring buffer (`src/support/shared_memory.rs`)

The data region is modelled as a function from physical byte offset to byte
value; `read_pos`/`write_pos` are the monotonically increasing counters of
the header.  `ptr::copy_nonoverlapping` into the region at a given offset
is `copyAt`; copying out is `readAt`. -/

namespace SharedMemory

inductive SharedMemoryError where
  | Io : SharedMemoryError
  | DataTooLarge : Nat → Nat → SharedMemoryError
  | NoDataAvailable : SharedMemoryError
  | Timeout : SharedMemoryError
  | Corrupted : SharedMemoryError
  | BufferOverflow : SharedMemoryError
  | AlignmentError : SharedMemoryError
deriving DecidableEq

structure SMState where
  mem : Nat → Nat
  read_pos : Nat
  write_pos : Nat
  ready : Bool
  capacity : Nat

/-- `ptr::copy_nonoverlapping(data, buf_start.add(start), data.len())`:
byte `i` of `data` lands at offset `start + i`. -/
def copyAt (m : Nat → Nat) (start : Nat) : List Nat → (Nat → Nat)
  | [] => m
  | b :: bs => copyAt (fun i => if i = start then b else m i) (start + 1) bs

/-- Copying `n` bytes out of the region starting at offset `start`. -/
def readAt (m : Nat → Nat) (start : Nat) : Nat → List Nat
  | 0 => []
  | n + 1 => m start :: readAt m (start + 1) n

/-- `SharedMemory::write` (shared_memory.rs line 156-222).  Returns the
`Result` together with the state left behind (the Rust method mutates
`self`; every error is returned before anything is copied). -/
def write (s : SMState) (data : List Nat) :
    Except SharedMemoryError Unit × SMState :=
  let capacity := s.capacity
  if data.length > capacity then
    (.error (.DataTooLarge capacity data.length), s)
  else
    let write_pos := s.write_pos
    let read_pos := s.read_pos
    let available_space :=
      if write_pos ≥ read_pos then capacity - (write_pos - read_pos)
      else read_pos - write_pos
    if data.length > available_space then
      (.error .BufferOverflow, s)
    else
      let actual_write_pos := write_pos % capacity
      let remaining_space := capacity - actual_write_pos
      let mem :=
        if data.length ≤ remaining_space then
          copyAt s.mem actual_write_pos data
        else
          copyAt (copyAt s.mem actual_write_pos (data.take remaining_space))
            0 (data.drop remaining_space)
      (.ok (),
       { s with mem := mem, write_pos := write_pos + data.length,
                ready := true })

/-- `SharedMemory::read_timeout` (shared_memory.rs line 228-303) with a
caller buffer of length `buflen`, viewed at a point where data is present:
`none` models the blocking/backoff loop never observing
`write_pos > read_pos` (ending in `Timeout` in the bounded mode). -/
def read_timeout (s : SMState) (buflen : Nat) :
    Option (List Nat × SMState) :=
  if s.write_pos > s.read_pos then
    let available := s.write_pos - s.read_pos
    let to_read := min available buflen
    let capacity := s.capacity
    let actual_read_pos := s.read_pos % capacity
    let remaining_data := capacity - actual_read_pos
    let bytes :=
      if to_read ≤ remaining_data then
        readAt s.mem actual_read_pos to_read
      else
        readAt s.mem actual_read_pos remaining_data ++
          readAt s.mem 0 (to_read - remaining_data)
    some (bytes,
      { s with read_pos := s.read_pos + to_read,
               ready := if s.write_pos = s.read_pos + to_read then false
                        else s.ready })
  else none

end SharedMemory

/-! ## C4: the write contract -/

/-- C4: for a write of `data` with `len(data) ≤ capacity` (given the ring
invariant `read_pos ≤ write_pos ≤ read_pos + capacity`): the write fails
with `BufferOverflow` iff `len(data) > capacity - (write_pos - read_pos)`;
any failure leaves the state untouched (no partial writes); a success
advances `write_pos` by exactly `len(data)`, leaves `read_pos` alone and
sets `ready`.  A write of more than `capacity` bytes fails with
`DataTooLarge`. -/
theorem write_contract (s : SharedMemory.SMState) (data : List Nat)
    (hlen : data.length ≤ s.capacity) (hinv : s.read_pos ≤ s.write_pos) :
    ((SharedMemory.write s data).1 = .error .BufferOverflow ↔
      data.length > s.capacity - (s.write_pos - s.read_pos)) ∧
    (∀ e, (SharedMemory.write s data).1 = .error e →
      (SharedMemory.write s data).2 = s) ∧
    ((SharedMemory.write s data).1 = .ok () →
      (SharedMemory.write s data).2.write_pos = s.write_pos + data.length ∧
      (SharedMemory.write s data).2.read_pos = s.read_pos ∧
      (SharedMemory.write s data).2.ready = true) ∧
    (∀ big : List Nat, big.length > s.capacity →
      (SharedMemory.write s big).1 =
        .error (.DataTooLarge s.capacity big.length)) := by
  refine ⟨?_, ?_, ?_, ?_⟩
  · simp only [SharedMemory.write]
    rw [if_neg (by omega), if_pos hinv]
    split <;> simp_all
  · intro e
    simp only [SharedMemory.write]
    rw [if_neg (by omega), if_pos hinv]
    split <;> simp
  · simp only [SharedMemory.write]
    rw [if_neg (by omega), if_pos hinv]
    split <;> simp
  · intro big hbig
    simp only [SharedMemory.write]
    rw [if_pos hbig]

/-- Witness for C4 at capacity 64, positions 60/0 (free space 4):
a 3-byte write succeeds and a 5-byte write would overflow. -/
theorem write_contract_witness :
    ((SharedMemory.write ⟨fun _ => 0, 0, 60, true, 64⟩ [1, 2, 3]).1 =
        .error .BufferOverflow ↔ 3 > 64 - (60 - 0)) ∧
    (∀ e, (SharedMemory.write ⟨fun _ => 0, 0, 60, true, 64⟩ [1, 2, 3]).1 =
        .error e →
      (SharedMemory.write ⟨fun _ => 0, 0, 60, true, 64⟩ [1, 2, 3]).2 =
        ⟨fun _ => 0, 0, 60, true, 64⟩) ∧
    ((SharedMemory.write ⟨fun _ => 0, 0, 60, true, 64⟩ [1, 2, 3]).1 =
        .ok () →
      (SharedMemory.write ⟨fun _ => 0, 0, 60, true, 64⟩
          [1, 2, 3]).2.write_pos = 60 + 3 ∧
      (SharedMemory.write ⟨fun _ => 0, 0, 60, true, 64⟩
          [1, 2, 3]).2.read_pos = 0 ∧
      (SharedMemory.write ⟨fun _ => 0, 0, 60, true, 64⟩
          [1, 2, 3]).2.ready = true) ∧
    (∀ big : List Nat, big.length > 64 →
      (SharedMemory.write ⟨fun _ => 0, 0, 60, true, 64⟩ big).1 =
        .error (.DataTooLarge 64 big.length)) :=
  write_contract ⟨fun _ => 0, 0, 60, true, 64⟩ [1, 2, 3]
    (by simp) (by simp)

/-! ## C3: ring buffer integrity under write/drain cycles -/

namespace SharedMemory

theorem copyAt_outside (d : List Nat) (m : Nat → Nat) (start x : Nat)
    (h : x < start ∨ start + d.length ≤ x) : copyAt m start d x = m x := by
  induction d generalizing m start with
  | nil => rfl
  | cons b bs ih =>
    have hx : x ≠ start := by
      rcases h with h | h
      · omega
      · simp only [List.length_cons] at h; omega
    rw [copyAt, ih]
    · simp [hx]
    · rcases h with h | h
      · exact Or.inl (by omega)
      · exact Or.inr (by simp only [List.length_cons] at h; omega)

theorem readAt_copyAt (d : List Nat) (m : Nat → Nat) (start : Nat) :
    readAt (copyAt m start d) start d.length = d := by
  induction d generalizing m start with
  | nil => rfl
  | cons b bs ih =>
    simp only [List.length_cons, copyAt, readAt]
    rw [copyAt_outside bs _ (start + 1) start (Or.inl (by omega)), ih]
    simp

theorem readAt_copyAt_disjoint (n : Nat) (d : List Nat) (m : Nat → Nat)
    (a b : Nat) (h : a + n ≤ b ∨ b + d.length ≤ a) :
    readAt (copyAt m b d) a n = readAt m a n := by
  induction n generalizing a with
  | zero => rfl
  | succ k ih =>
    rw [readAt, readAt, copyAt_outside d m b a (by omega), ih (a + 1) (by omega)]

/-- One accepted write into a drained ring (`read_pos = write_pos`),
followed by a read with a buffer of the write's size, returns exactly the
written bytes and drains the ring again. -/
theorem write_drain_cycle (s : SMState) (w : List Nat)
    (hcap : 0 < s.capacity) (hrw : s.read_pos = s.write_pos)
    (hpos : 0 < w.length) (hlen : w.length ≤ s.capacity) :
    ∃ s1 s2, write s w = (.ok (), s1) ∧
      read_timeout s1 w.length = some (w, s2) ∧
      s2.capacity = s.capacity ∧
      s2.write_pos = s.write_pos + w.length ∧
      s2.read_pos = s2.write_pos := by
  obtain ⟨mem, rp, wp, rdy, cap⟩ := s
  simp only at hrw hlen hcap ⊢
  subst hrw
  have hmod : rp % cap < cap := Nat.mod_lt _ hcap
  set a := rp % cap with ha
  set r := cap - a with hr
  set M : Nat → Nat :=
    (if w.length ≤ r then copyAt mem a w
     else copyAt (copyAt mem a (w.take r)) 0 (w.drop r)) with hM
  have hw : write ⟨mem, rp, rp, rdy, cap⟩ w =
      (.ok (), ⟨M, rp, rp + w.length, true, cap⟩) := by
    simp only [write]
    rw [if_neg (show ¬ w.length > cap by omega),
      if_pos (show rp ≥ rp by omega),
      if_neg (show ¬ w.length > cap - (rp - rp) by omega)]
  have hbytes : (if w.length ≤ r then readAt M a w.length
      else readAt M a r ++ readAt M 0 (w.length - r)) = w := by
    by_cases hb : w.length ≤ r
    · rw [if_pos hb, hM, if_pos hb]
      exact readAt_copyAt w mem a
    · rw [if_neg hb, hM, if_neg hb]
      have hrlen : r < w.length := by omega
      have htlen : (w.take r).length = r := by
        rw [List.length_take]; omega
      have hdlen : (w.drop r).length = w.length - r := by
        rw [List.length_drop]
      have h1 : readAt
          (copyAt (copyAt mem a (w.take r)) 0 (w.drop r)) a r =
          readAt (copyAt mem a (w.take r)) a r := by
        apply readAt_copyAt_disjoint
        right
        rw [hdlen]
        omega
      have h2 : readAt (copyAt mem a (w.take r)) a r = w.take r := by
        have h := readAt_copyAt (w.take r) mem a
        rwa [htlen] at h
      have h3 : readAt
          (copyAt (copyAt mem a (w.take r)) 0 (w.drop r)) 0
          (w.length - r) = w.drop r := by
        have h := readAt_copyAt (w.drop r) (copyAt mem a (w.take r)) 0
        rwa [hdlen] at h
      rw [h1, h2, h3, List.take_append_drop]
  have hread : read_timeout ⟨M, rp, rp + w.length, true, cap⟩ w.length =
      some (w, ⟨M, rp + w.length, rp + w.length, false, cap⟩) := by
    simp only [read_timeout]
    rw [if_pos (show rp + w.length > rp by omega)]
    have havail : rp + w.length - rp = w.length := by omega
    rw [havail, Nat.min_self, ← ha, ← hr, hbytes]
    simp
  exact ⟨_, _, hw, hread, rfl, rfl, rfl⟩

/-- The write/drain experiment: write each payload in turn, the reader
draining the ring (with a buffer of the payload's size) after each write.
Returns the list of byte sequences the reads produced and the final ring
state; `none` if any write is rejected or any read would block forever. -/
def drainAll (s : SMState) : List (List Nat) →
    Option (List (List Nat) × SMState)
  | [] => some ([], s)
  | w :: ws =>
    match write s w with
    | (.ok _, s1) =>
      match read_timeout s1 w.length with
      | some (bytes, s2) =>
        match drainAll s2 ws with
        | some (reads, s3) => some (bytes :: reads, s3)
        | none => none
      | none => none
    | (.error _, _) => none

end SharedMemory

/-- C3: starting from a drained ring (`read_pos = write_pos`), a sequence
of nonempty writes each of which fits in the capacity, with the reader
draining the ring between writes, reproduces the written payloads exactly
(each read returns the corresponding write, so the concatenation of the
reads equals `w1 ++ … ++ wn`), and the positions advance monotonically to
`initial + Σ len(wi)` without being reduced modulo the capacity. -/
theorem ring_buffer_integrity (ws : List (List Nat))
    (s : SharedMemory.SMState) (hcap : 0 < s.capacity)
    (hrw : s.read_pos = s.write_pos)
    (hall : ∀ w ∈ ws, 0 < w.length ∧ w.length ≤ s.capacity) :
    ∃ sf, SharedMemory.drainAll s ws = some (ws, sf) ∧
      sf.write_pos = s.write_pos + (ws.map List.length).sum ∧
      sf.read_pos = sf.write_pos ∧
      sf.capacity = s.capacity := by
  induction ws generalizing s with
  | nil => exact ⟨s, rfl, by simp, hrw, rfl⟩
  | cons w ws ih =>
    obtain ⟨hwpos, hwlen⟩ := hall w (by simp)
    obtain ⟨s1, s2, hw, hr, hc2, hwp2, hrw2⟩ :=
      SharedMemory.write_drain_cycle s w hcap hrw hwpos hwlen
    obtain ⟨sf, hd, hwpf, hrwf, hcf⟩ := ih s2 (hc2 ▸ hcap) hrw2
      (fun x hx => by
        obtain ⟨h1, h2⟩ := hall x (by simp [hx])
        exact ⟨h1, hc2 ▸ h2⟩)
    refine ⟨sf, ?_, ?_, hrwf, hcf.trans hc2⟩
    · simp [SharedMemory.drainAll, hw, hr, hd]
    · rw [hwpf, hwp2, hrw2, hwpf] at *
      simp only [List.map_cons, List.sum_cons]
      omega

/-- Witness for C3: the S5 scenario — capacity 128, four 48-byte payloads,
drained after each write; the reads reproduce the writes and
`write_pos = read_pos = 192` at the end. -/
theorem ring_buffer_integrity_witness :
    ∃ sf, SharedMemory.drainAll ⟨fun _ => 0, 0, 0, false, 128⟩
        [List.replicate 48 1, List.replicate 48 2,
         List.replicate 48 3, List.replicate 48 4] =
      some ([List.replicate 48 1, List.replicate 48 2,
             List.replicate 48 3, List.replicate 48 4], sf) ∧
      sf.write_pos = 192 ∧ sf.read_pos = 192 := by
  obtain ⟨sf, h1, h2, h3, _⟩ :=
    ring_buffer_integrity
      [List.replicate 48 1, List.replicate 48 2,
       List.replicate 48 3, List.replicate 48 4]
      ⟨fun _ => 0, 0, 0, false, 128⟩ (by simp) rfl (by simp)
  refine ⟨sf, h1, ?_, ?_⟩
  · rw [h2]; simp
  · rw [h3, h2]; simp

/-! ## Session store (`src/support/sessons.rs`)

`DashMap` is modelled as an association list with unique keys: `get` is
first-match lookup, `insert` replaces in place, `remove` deletes the key.
`DateTime<Utc>` is modelled as a count of seconds (`Int`); `now` is passed
explicitly. -/

def getAssoc {α : Type} : List (String × α) → String → Option α
  | [], _ => none
  | (k1, v) :: rest, k => if k1 = k then some v else getAssoc rest k

def setAssoc {α : Type} : List (String × α) → String → α → List (String × α)
  | [], k, v => [(k, v)]
  | (k1, v1) :: rest, k, v =>
    if k1 = k then (k, v) :: rest else (k1, v1) :: setAssoc rest k v

def removeAssoc {α : Type} (l : List (String × α)) (k : String) :
    List (String × α) :=
  l.filter (fun p => ¬ p.1 = k)

structure SessionItem where
  items : List (String × String)
  expires_at : Int

def SessionItem.get_item (s : SessionItem) (key : String) : Option String :=
  getAssoc s.items key

def SessionItem.set_item (s : SessionItem) (key value : String) :
    SessionItem :=
  { s with items := setAssoc s.items key value }

namespace SessionStore

/-- `SessionStore::create_session`: `expires_at = now + expires_in_secs`. -/
def create_session (store : List (String × SessionItem)) (id : String)
    (expires_in_secs : Int) (now : Int) : List (String × SessionItem) :=
  setAssoc store id ⟨[], now + expires_in_secs⟩

/-- `SessionStore::get_session` (sessons.rs line 82-91): a hit is returned
only while `expires_at > now`; an expired entry is removed on access.
Returns the lookup result together with the store left behind. -/
def get_session (store : List (String × SessionItem)) (id : String)
    (now : Int) : Option SessionItem × List (String × SessionItem) :=
  match getAssoc store id with
  | none => (none, store)
  | some item =>
    if item.expires_at > now then (some item, store)
    else (none, removeAssoc store id)

end SessionStore

theorem getAssoc_setAssoc_self {α : Type} (l : List (String × α))
    (k : String) (v : α) : getAssoc (setAssoc l k v) k = some v := by
  induction l with
  | nil => simp [setAssoc, getAssoc]
  | cons p rest ih =>
    obtain ⟨k1, v1⟩ := p
    by_cases h : k1 = k <;> simp [setAssoc, getAssoc, h, ih]

theorem getAssoc_removeAssoc_self {α : Type} (l : List (String × α))
    (k : String) : getAssoc (removeAssoc l k) k = none := by
  induction l with
  | nil => rfl
  | cons p rest ih =>
    obtain ⟨k1, v1⟩ := p
    by_cases h : k1 = k <;> simp [removeAssoc, getAssoc, h] at ih ⊢ <;>
      simpa [removeAssoc] using ih

/-- C9: `get_session` returns `some item` iff the stored item's
`expires_at` is strictly later than `now` (and then leaves the store
untouched); looking up an expired session removes that entry.  Hence after
`create(id, Δ)` at time `t0`: a lookup at `t > t0 + Δ` returns `none`,
while a lookup at `t < t0 + Δ` returns the live item. -/
theorem get_session_ttl (store : List (String × SessionItem)) (id : String)
    (now t0 t Δ : Int) :
    (∀ item store2,
        SessionStore.get_session store id now = (some item, store2) →
          item.expires_at > now ∧ store2 = store) ∧
    (∀ item, getAssoc store id = some item → ¬ item.expires_at > now →
        SessionStore.get_session store id now = (none, removeAssoc store id) ∧
          getAssoc (removeAssoc store id) id = none) ∧
    (t > t0 + Δ →
      (SessionStore.get_session
        (SessionStore.create_session store id Δ t0) id t).1 = none) ∧
    (t < t0 + Δ →
      (SessionStore.get_session
        (SessionStore.create_session store id Δ t0) id t).1 =
        some ⟨[], t0 + Δ⟩) := by
  refine ⟨?_, ?_, ?_, ?_⟩
  · intro item store2 h
    simp only [SessionStore.get_session] at h
    split at h
    · simp at h
    · rename_i item0 hfound
      split at h
      · rename_i hlive
        simp only [Prod.mk.injEq, Option.some.injEq] at h
        obtain ⟨h1, h2⟩ := h
        exact ⟨h1 ▸ hlive, h2.symm⟩
      · simp at h
  · intro item hfound hexp
    constructor
    · simp [SessionStore.get_session, hfound, hexp]
    · exact getAssoc_removeAssoc_self store id
  · intro ht
    simp only [SessionStore.get_session, SessionStore.create_session,
      getAssoc_setAssoc_self]
    rw [if_neg (by simp; omega)]
  · intro ht
    simp only [SessionStore.get_session, SessionStore.create_session,
      getAssoc_setAssoc_self]
    rw [if_pos (by simp; omega)]

/-- Witness for C9: a session created at `t0 = 100` with TTL 1800 is
returned at `t = 1000` and gone at `t = 2000`. -/
theorem get_session_ttl_witness :
    (SessionStore.get_session
        (SessionStore.create_session [] "s1" 1800 100) "s1" 2000).1 = none ∧
    (SessionStore.get_session
        (SessionStore.create_session [] "s1" 1800 100) "s1" 1000).1 =
      some ⟨[], 100 + 1800⟩ :=
  ⟨(get_session_ttl [] "s1" 0 100 2000 1800).2.2.1 (by norm_num),
   (get_session_ttl [] "s1" 0 100 1000 1800).2.2.2 (by norm_num)⟩

/-! ## Logging levels (`src/schema/schema.rs` lines 845-892) -/

/-- `LoggingLevel`, variants in declaration order; the derived `PartialOrd`
compares by that order (`Debug < Info < … < Emergency`). -/
inductive LoggingLevel where
  | Debug | Info | Notice | Warning | Error | Critical | Alert | Emergency
deriving DecidableEq

/-- Discriminant used to model the derived `PartialOrd` order. -/
def LoggingLevel.idx : LoggingLevel → Nat
  | .Debug => 0
  | .Info => 1
  | .Notice => 2
  | .Warning => 3
  | .Error => 4
  | .Critical => 5
  | .Alert => 6
  | .Emergency => 7

/-- `impl ToString for LoggingLevel` (schema.rs line 858-875). -/
def LoggingLevel.toString : LoggingLevel → String
  | .Info => "info"
  | .Notice => "notice"
  | .Warning => "warning"
  | .Error => "error"
  | .Critical => "critical"
  | .Alert => "alert"
  | .Emergency => "emergency"
  | .Debug => "debug"

/-- `str::to_lowercase`, on the ASCII strings the runtime stores. -/
def strLower (s : String) : String := String.mk (s.data.map Char.toLower)

/-- `impl From<&str> for LoggingLevel` (schema.rs line 877-892).  Note the
`"warn"` arm: the string `"warning"` falls through to the default `Info`. -/
def LoggingLevel.ofStr (level_str : String) : LoggingLevel :=
  match strLower level_str with
  | "debug" => .Debug
  | "info" => .Info
  | "error" => .Error
  | "notice" => .Notice
  | "warn" => .Warning
  | "critical" => .Critical
  | "alert" => .Alert
  | "emergency" => .Emergency
  | _ => .Info

/-- The serde wire name of a level (`rename_all = "lowercase"`). -/
def LoggingLevel.serdeName : LoggingLevel → String
  | .Debug => "debug"
  | .Info => "info"
  | .Notice => "notice"
  | .Warning => "warning"
  | .Error => "error"
  | .Critical => "critical"
  | .Alert => "alert"
  | .Emergency => "emergency"

/-- serde deserialization of a `LoggingLevel` from a JSON string
(`rename_all = "lowercase"`: only the exact lowercase variant names are
accepted). -/
def LoggingLevel.deserialize : Json → Option LoggingLevel
  | .str "debug" => some .Debug
  | .str "info" => some .Info
  | .str "notice" => some .Notice
  | .str "warning" => some .Warning
  | .str "error" => some .Error
  | .str "critical" => some .Critical
  | .str "alert" => some .Alert
  | .str "emergency" => some .Emergency
  | _ => none

namespace Server

/-- Serialization of `LoggingMessageParams` (level, optional logger,
data). -/
def encodeLoggingMessageParams (level : LoggingLevel)
    (logger : Option String) (data : Json) : Json :=
  .obj ([("level", .str level.serdeName)] ++
        (optField "logger" (logger.map Json.str)) ++ [("data", data)])

/-- `Modelled from the spec:` `LoggingMessageNotification::new` and
`build_server_notification` are defined in schema files missing from this
tree; per the spec the logging notification goes out with method
`notifications/message` (spec section 6, "Logging" and S4). -/
def buildLoggingNotification (level : LoggingLevel) (message : String) :
    JSONRPCMessage :=
  .notification ⟨"2.0", "notifications/message",
    some (encodeLoggingMessageParams level (some "Mcp Server 1.0")
      (.str message))⟩

/-- `Server::send_log` (server.rs line 415-448): with `session` the result
of `current_session()`.  No current session: return without emitting.
Otherwise the threshold is `LoggingLevel::from` of the session's
`debug_level` item (default `Info`), and the notification is emitted
unless `level < max_level`. -/
def send_log (session : Option SessionItem) (level : LoggingLevel)
    (message : String) : Option JSONRPCMessage :=
  match session with
  | none => none
  | some s =>
    let max_level :=
      match s.get_item "debug_level" with
      | some str => LoggingLevel.ofStr str
      | none => LoggingLevel.Info
    if level.idx < max_level.idx then none
    else some (buildLoggingNotification level message)

end Server

/-! ## C6: the log filter -/

/-- C6 (code bug): after `logging/setLevel{level:"warning"}` the session's
`debug_level` item holds `Warning.toString() = "warning"`, but
`LoggingLevel::from("warning")` falls through to `Info` (only `"warn"`
maps to `Warning`), so `send_log(Info, "x")` EMITS a `notifications/message`
— the spec (S4) requires it to emit nothing.  The code's own
`ToString`/`From` pair fails to round-trip exactly at `Warning`. -/
theorem send_log_setlevel_warning_emits :
    LoggingLevel.ofStr (LoggingLevel.Warning.toString) = .Info ∧
    Server.send_log
        (some ⟨[("debug_level", LoggingLevel.Warning.toString)], 1800⟩)
        .Info "x" =
      some (Server.buildLoggingNotification .Info "x") ∧
    (∀ l : LoggingLevel, l ≠ .Warning →
      LoggingLevel.ofStr (l.toString) = l) := by
  refine ⟨by decide, by rfl, ?_⟩
  intro l hl
  cases l <;> first | decide | exact absurd rfl hl

/-! ## Server dispatcher (`src/server.rs`)

The dispatcher is modelled as a pure step function on a `ServerModel`.
Outbound payloads (all of which the Rust code produces by serializing a
message and pushing it through the outbound chain) are collected as the
list of `JSONRPCMessage` values serialized, in emission order.  `log::*`
macros and `setup_logging` only configure the local logger and are not
modelled.  Wall-clock time is the explicit pair `now` (seconds, for the
session store) and `nowStr` (the RFC3339 text used by `handle_ping`). -/

namespace Server

structure ToolInputSchema where
  type : String
  properties : Option (List (String × Json))
  required : Option (List String)

structure Tool where
  name : String
  description : Option String
  input_schema : ToolInputSchema

structure ServerConfig where
  name : String
  version : String
  tools : List Tool

/-- `ServerState` (server.rs line 75-81). -/
inductive ServerState where
  | Initialized | Running | Uninitialized | Shutdown
deriving DecidableEq

/-- The dispatcher-relevant state of `Server`: its configuration, the names
with a registered tool handler, the lifecycle state, the cached
response/error messages, the job manager's active request ids, the global
session store and the thread-local current session id (default
`"local"`). -/
structure ServerModel where
  config : ServerConfig
  tool_handlers : List String
  state : ServerState
  cached : List JSONRPCMessage
  jobs : List RequestId
  sessions : List (String × SessionItem)
  current_session_id : String

/-- Serialization of `ToolInputSchema` (camelCase; `properties` and
`required` omitted when absent). -/
def encodeToolInputSchema (t : ToolInputSchema) : Json :=
  .obj ([("type", .str t.type)] ++
        optField "properties" (t.properties.map Json.obj) ++
        optField "required"
          (t.required.map (fun l => Json.arr (l.map Json.str))))

/-- Serialization of `Tool` (camelCase: `inputSchema`). -/
def encodeTool (t : Tool) : Json :=
  .obj ([("name", .str t.name)] ++
        optField "description" (t.description.map Json.str) ++
        [("inputSchema", encodeToolInputSchema t.input_schema)])

/-- Serialization of the `ListToolsResult` built by `handle_list_tools`
(`next_cursor = None` is omitted). -/
def encodeListToolsResult (tools : List Tool) : Json :=
  .obj [("tools", .arr (tools.map encodeTool))]

/-- Serialization of the `InitializeResult` built by `handle_initialize`
(server.rs line 706-731): `logging: Some(false)`, `tools` present iff the
config declares any tool, camelCase field names, protocol version
`"2025-03-26"`. -/
def encodeInitializeResult (config : ServerConfig) : Json :=
  .obj [("protocolVersion", .str "2025-03-26"),
        ("capabilities", .obj
          ([("logging", .bool false)] ++
           (if config.tools.isEmpty then []
            else [("tools", .obj [("listChanged", .bool false)])]))),
        ("serverInfo", .obj [("name", .str config.name),
                             ("version", .str config.version)])]

/-- `Server::check_state` (server.rs line 670-696): when the state is not
`Running` it emits a `JSONRPCResponse` whose `result` is the serialization
of a `JSONRPCError` message (note: a Response wrapping the error object,
not an Error message), and fails.  `mcp_param` (serialize-to-`Value`) is
not under `src/`; it is modelled as the message encoder. -/
def check_state (state : ServerState) (id : RequestId) :
    List JSONRPCMessage × Bool :=
  if state ≠ .Running then
    ([.response ⟨"2.0", id,
        encodeMsg (.error ⟨"2.0", id,
          ⟨-32600, "Server not initialized", none⟩⟩)⟩], false)
  else ([], true)

/-- `Modelled from the spec:` `build_server_error` (referenced from
`src/schema/server.rs`, defined in a schema file missing from this tree)
builds the JSON-RPC Error message with the given id, code, message and
data, per spec section 7 ("User-visible failures are always JSON-RPC Error
objects"). -/
def build_server_error (id : RequestId) (code : Int) (message : String)
    (data : Option Json) : JSONRPCMessage :=
  .error ⟨"2.0", id, ⟨code, message, data⟩⟩

/-- `Server::response_with_error` (server.rs line 985-1000). -/
def response_with_error (id : RequestId) (code : Int) (message : String)
    (data : Option Json) : JSONRPCMessage :=
  build_server_error id code message data

/-- Deserialization of `CallToolParams` (`name`, optional `arguments`
map): the `arguments` field must be absent, `null` or a JSON object. -/
def decodeCallToolParams (j : Json) :
    Option (String × Option (List (String × Json))) :=
  match j with
  | .obj fields =>
    match (jlookup "name" fields).bind getStr with
    | none => none
    | some name =>
      match jlookup "arguments" fields with
      | none => some (name, none)
      | some .null => some (name, none)
      | some (.obj m) => some (name, some m)
      | some _ => none
  | _ => none

/-- Deserialization of `SetLevelParams` (`level`: lowercase variant
name). -/
def decodeSetLevelParams (j : Json) : Option LoggingLevel :=
  match j with
  | .obj fields => (jlookup "level" fields).bind LoggingLevel.deserialize
  | _ => none

/-- Deserialization of `CancelledParams` (`request_id`, optional
`reason`). -/
def decodeCancelledParams (j : Json) : Option (RequestId × Option String) :=
  match j with
  | .obj fields =>
    match (jlookup "request_id" fields).bind decodeId with
    | none => none
    | some rid =>
      match jlookup "reason" fields with
      | none => some (rid, none)
      | some .null => some (rid, none)
      | some (.str s) => some (rid, some s)
      | some _ => none
  | _ => none

/-- Result of one `Server::handle_message` dispatch: the server left
behind, the serialized messages pushed through the outbound chain (in
order), whether the stop signal was broadcast, the request ids whose jobs
were cancelled, and the `Result` the method returned. -/
structure DispatchOut where
  server : ServerModel
  outbound : List JSONRPCMessage
  stop : Bool
  cancelled : List RequestId
  ret : Except String Unit

/-- `Server::register_tool_handler` (server.rs line 210-237): the name
must be declared in `config.tools`; on success the handler is stored under
the name (`HashMap::insert`, modelled on the name set).  The `try_lock`
failure path is a concurrency artefact and is not modelled. -/
def register_tool_handler (config : ServerConfig)
    (tool_handlers : List String) (tool_name : String) :
    Except String (List String) :=
  if ¬ config.tools.any (fun tool => tool.name = tool_name) then
    .error ("Tool " ++ tool_name ++ " not found in server config")
  else if tool_name ∈ tool_handlers then .ok tool_handlers
  else .ok (tool_handlers ++ [tool_name])

/-- `Server::handle_initialize` (server.rs line 698-747): reply with the
`InitializeResult` and move to `Initialized` (unconditionally — the state
is not checked first). -/
def handle_initialize (server : ServerModel) (id : RequestId) :
    ServerModel × JSONRPCMessage :=
  ({ server with state := .Initialized },
   .response ⟨"2.0", id, encodeInitializeResult server.config⟩)

/-- `Server::handle_ping` (server.rs line 828-850): empty result whose
flattened `extra` map carries the RFC3339 timestamp. -/
def handle_ping (id : RequestId) (nowStr : String) : JSONRPCMessage :=
  .response ⟨"2.0", id, .obj [("timestamp", .str nowStr)]⟩

/-- `Server::handle_list_tools` (server.rs line 749-767). -/
def handle_list_tools (config : ServerConfig) (id : RequestId) :
    JSONRPCMessage :=
  .response ⟨"2.0", id, encodeListToolsResult config.tools⟩

/-- `Server::handle_shutdown` (server.rs line 813-826): replies with an
empty object; it does NOT touch the state. -/
def handle_shutdown (id : RequestId) : JSONRPCMessage :=
  .response ⟨"2.0", id, .obj []⟩

/-- `Server::handle_tool_call` (server.rs line 769-811) together with
`execute_tool`: parse `CallToolParams`, look up the handler, enqueue the
job (`DashMap::insert` keyed by request id); a missing handler emits the
-32000 error and returns `Ok`; parameter failures return `Err` to the
dispatcher. -/
def handle_tool_call (server : ServerModel) (id : RequestId)
    (params : Option Json) :
    ServerModel × List JSONRPCMessage × Except String Unit :=
  match params with
  | none => (server, [], .error "Missing parameters in tools/call request")
  | some p =>
    match decodeCallToolParams p with
    | none => (server, [], .error "Invalid tools/call parameters")
    | some (tool_name, _args) =>
      if tool_name ∈ server.tool_handlers then
        ({ server with
            jobs := if id ∈ server.jobs then server.jobs
                    else server.jobs ++ [id] }, [], .ok ())
      else
        (server,
         [.error ⟨"2.0", id,
            ⟨-32000,
             "Tool execution failed: No handler found for tool: " ++
               tool_name, none⟩⟩], .ok ())

/-- `Server::handle_set_level` (server.rs line 949-983): parse
`SetLevelParams`, store `level.to_string()` under `debug_level` in the
current session (write-through via the item's shared map; a missing or
expired session is skipped), reply with an empty result. -/
def handle_set_level (server : ServerModel) (id : RequestId)
    (session_id : String) (params : Option Json) (now : Int) :
    ServerModel × List JSONRPCMessage × Except String Unit :=
  match params with
  | none =>
    (server, [], .error "Missing parameters in logging/setLevel request")
  | some p =>
    match decodeSetLevelParams p with
    | none => (server, [], .error "Invalid set level parameters")
    | some level =>
      let gs := SessionStore.get_session server.sessions session_id now
      let sessions2 :=
        match gs.1 with
        | some s =>
          setAssoc gs.2 session_id (s.set_item "debug_level" level.toString)
        | none => gs.2
      ({ server with sessions := sessions2 },
       [.response ⟨"2.0", id, .obj []⟩], .ok ())

/-- `Server::handle_cancelled` (server.rs line 919-932) with
`JobManager::cancel_job`: parse `CancelledParams`, remove the job and
cancel its task.  Returns the ids cancelled. -/
def handle_cancelled (server : ServerModel) (params : Option Json) :
    ServerModel × List RequestId × Except String Unit :=
  match params with
  | none => (server, [], .error "Missing parameters in tools/call request")
  | some p =>
    match decodeCancelledParams p with
    | none => (server, [], .error "Invalid Cancellation parameters")
    | some (rid, _reason) =>
      ({ server with jobs := server.jobs.filter (fun j => ¬ j = rid) },
       [rid], .ok ())

/-- `Server::handle_message` (server.rs line 512-667): the full inbound
dispatch of one decoded message.  `ctx` is the payload context map
(`ChainContext.data`). -/
def handle_message (server : ServerModel) (ctx : Option (List (String × String)))
    (msg : JSONRPCMessage) (now : Int) (nowStr : String) : DispatchOut :=
  match msg with
  | .request req =>
    let id := req.id
    let method := req.method
    let params := req.params
    let server :=
      match ctx with
      | some c =>
        match getAssoc c "sessionId" with
        | some sid => { server with current_session_id := sid }
        | none => server
      | none => { server with current_session_id := "local" }
    let session_id :=
      match ctx with
      | some c =>
        match getAssoc c "sessionId" with
        | some sid => sid
        | none => "local"
      | none => "local"
    if method = "initialize" then
      let hi := handle_initialize server id
      let server := hi.1
      let server :=
        match ctx with
        | some c =>
          match getAssoc c "sessionId" with
          | some sid =>
            { server with sessions :=
                SessionStore.create_session server.sessions sid (60 * 30) now }
          | none => server
        | none =>
          { server with sessions :=
              SessionStore.create_session server.sessions "local" (60 * 30) now }
      ⟨server, [hi.2], false, [], .ok ()⟩
    else if method = "ping" then
      ⟨server, [handle_ping id nowStr], false, [], .ok ()⟩
    else if method = "tools/list" then
      let cs := check_state server.state id
      if cs.2 then
        ⟨server, [handle_list_tools server.config id], false, [], .ok ()⟩
      else
        ⟨server,
         cs.1 ++ [response_with_error id (-32600)
           "Cannot list tools at current state.  Please initialize the session first"
           none],
         false, [], .error "Server not initialized"⟩
    else if method = "tools/call" then
      let gs := SessionStore.get_session server.sessions
        server.current_session_id now
      let logOut := (send_log gs.1 .Info "begin handle log").toList
      let server := { server with sessions := gs.2 }
      let cs := check_state server.state id
      if cs.2 then
        let tc := handle_tool_call server id params
        match tc.2.2 with
        | .ok _ => ⟨tc.1, logOut ++ tc.2.1, false, [], .ok ()⟩
        | .error _ =>
          ⟨tc.1,
           logOut ++ tc.2.1 ++
             [response_with_error id (-32600) "Failed to call tool" none],
           false, [], .ok ()⟩
      else
        ⟨server,
         logOut ++ cs.1 ++ [response_with_error id (-32600)
           "Cannot list tools at current state.  Please initialize the session first"
           none],
         false, [], .error "Server not initialized"⟩
    else if method = "shutdown" then
      let cs := check_state server.state id
      if cs.2 then
        ⟨server, [handle_shutdown id], true, [], .ok ()⟩
      else
        ⟨server, cs.1, false, [], .error "Server not initialized"⟩
    else if method = "logging/setLevel" then
      let cs := check_state server.state id
      if cs.2 then
        let sl := handle_set_level server id session_id params now
        ⟨sl.1, sl.2.1, false, [], .ok ()⟩
      else
        ⟨server,
         cs.1 ++ [response_with_error id (-32600)
           "Cannot set logging level at current state.  Please initialize the session first"
           none],
         false, [], .error "Server not initialized"⟩
    else
      ⟨server, [], false, [], .ok ()⟩
  | .notification notif =>
    if notif.method = "notifications/cancelled" then
      let hc := handle_cancelled server notif.params
      ⟨hc.1, [], false, hc.2.1, .ok ()⟩
    else if notif.method = "notifications/initialized" then
      ⟨{ server with state := .Running }, [], false, [], .ok ()⟩
    else
      ⟨server, [], false, [], .ok ()⟩
  | .response _ =>
    ⟨{ server with cached := server.cached ++ [msg] }, [], false, [], .ok ()⟩
  | .error _ =>
    ⟨{ server with cached := server.cached ++ [msg] }, [], false, [], .ok ()⟩

end Server

/-! ## C10: tool handler registration -/

/-- C10: `register_tool_handler(name, _)` fails (leaving the handler table
unchanged) whenever `name` is not among the configured tools, and a
handler is inserted only for a configured name. -/
theorem register_tool_handler_gate (config : Server.ServerConfig)
    (handlers : List String) (name : String) :
    ((¬ ∃ t ∈ config.tools, t.name = name) →
      Server.register_tool_handler config handlers name =
        .error ("Tool " ++ name ++ " not found in server config")) ∧
    (∀ table, Server.register_tool_handler config handlers name = .ok table →
      (∃ t ∈ config.tools, t.name = name) ∧
      table = if name ∈ handlers then handlers else handlers ++ [name]) := by
  constructor
  · intro h
    rw [Server.register_tool_handler, if_pos]
    simpa [List.any_eq_true] using h
  · intro table htab
    rw [Server.register_tool_handler] at htab
    split at htab
    · exact absurd htab (by simp)
    · rename_i hfound
      simp only [not_not, List.any_eq_true, decide_eq_true_eq] at hfound
      refine ⟨hfound, ?_⟩
      split at htab <;> rename_i hmem <;>
        simp_all
  -- the `try_lock` failure branch is a transient concurrency error and is
  -- outside this sequential model

/-- Witness for C10: with only `echo` configured, registering `nope`
fails and registering `echo` succeeds. -/
theorem register_tool_handler_gate_witness :
    Server.register_tool_handler
        ⟨"MCP Server", "1.0.0", [⟨"echo", none, ⟨"object", none, none⟩⟩]⟩
        [] "nope" =
      .error ("Tool " ++ "nope" ++ " not found in server config") ∧
    (∃ t ∈ (⟨"MCP Server", "1.0.0",
        [⟨"echo", none, ⟨"object", none, none⟩⟩]⟩ :
          Server.ServerConfig).tools, t.name = "echo") := by
  constructor
  · exact (register_tool_handler_gate
      ⟨"MCP Server", "1.0.0", [⟨"echo", none, ⟨"object", none, none⟩⟩]⟩
      [] "nope").1 (by simp)
  · exact ((register_tool_handler_gate
      ⟨"MCP Server", "1.0.0", [⟨"echo", none, ⟨"object", none, none⟩⟩]⟩
      [] "echo").2 ["echo"] (by rfl)).1

/-! ## C8: lifecycle transitions -/

/-- A running server with the default configuration and no registered
handlers, jobs or sessions. -/
def srvRun : Server.ServerModel :=
  { config := { name := "MCP Server", version := "1.0.0", tools := [] },
    tool_handlers := [], state := .Running, cached := [], jobs := [],
    sessions := [], current_session_id := "local" }

/-- As `srvRun` but still `Uninitialized`. -/
def srvUninit : Server.ServerModel :=
  { srvRun with state := .Uninitialized }

/-- C8 (counterexample): a shutdown request processed in state `Running`
leaves the state `Running` — the server never transitions to `Shutdown`
(no assignment of `ServerState::Shutdown` exists in the dispatcher). -/
theorem shutdown_no_transition_counterexample :
    (Server.handle_message srvRun none
        (.request ⟨"2.0", .number 7, "shutdown", none⟩) 0 "t").server.state =
      .Running ∧
    Server.ServerState.Running ≠ .Shutdown := by
  exact ⟨rfl, by simp⟩

/-- C8 (amended): `initialize` moves the state to `Initialized` (from any
state), `notifications/initialized` moves it to `Running` (from any
state), and a `shutdown` request never changes the state: it is rejected
outside `Running`, and in `Running` it replies and broadcasts the stop
signal while the state stays `Running` (the stop signal is broadcast iff
the state was `Running`). -/
theorem lifecycle_transitions (server : Server.ServerModel)
    (ctx : Option (List (String × String))) (id : RequestId)
    (p : Option Json) (now : Int) (nowStr : String) :
    (Server.handle_message server ctx
        (.request ⟨"2.0", id, "initialize", p⟩) now nowStr).server.state =
      .Initialized ∧
    (Server.handle_message server ctx
        (.notification ⟨"2.0", "notifications/initialized", p⟩)
        now nowStr).server.state = .Running ∧
    (Server.handle_message server ctx
        (.request ⟨"2.0", id, "shutdown", p⟩) now nowStr).server.state =
      server.state ∧
    ((Server.handle_message server ctx
        (.request ⟨"2.0", id, "shutdown", p⟩) now nowStr).stop = true ↔
      server.state = .Running) := by
  refine ⟨?_, ?_, ?_, ?_⟩
  · cases ctx with
    | none => simp [Server.handle_message, Server.handle_initialize]
    | some c =>
      cases h : getAssoc c "sessionId" <;>
        simp [Server.handle_message, Server.handle_initialize, h]
  · simp [Server.handle_message]
  · by_cases hs : server.state = .Running <;>
      cases ctx with
      | none =>
        simp [Server.handle_message, Server.check_state,
          Server.handle_shutdown, hs]
      | some c =>
        cases h : getAssoc c "sessionId" <;>
          simp [Server.handle_message, Server.check_state,
            Server.handle_shutdown, hs, h]
  · by_cases hs : server.state = .Running <;>
      cases ctx with
      | none =>
        simp [Server.handle_message, Server.check_state,
          Server.handle_shutdown, hs]
      | some c =>
        cases h : getAssoc c "sessionId" <;>
          simp [Server.handle_message, Server.check_state,
            Server.handle_shutdown, hs, h]

/-! ## C1: the lifecycle gate -/

/-- The message `check_state` actually emits outside `Running`: a
`JSONRPCResponse` whose `result` is the serialized error object — not a
JSON-RPC Error message. -/
def state_error_message (id : RequestId) : JSONRPCMessage :=
  .response ⟨"2.0", id,
    encodeMsg (.error ⟨"2.0", id, ⟨-32600, "Server not initialized", none⟩⟩)⟩

/-- The human-readable text `response_with_error` attaches per gated
method (the `tools/call` arm reuses the `tools/list` text). -/
def gate_error_text (method : String) : String :=
  if method = "logging/setLevel" then
    "Cannot set logging level at current state.  Please initialize the session first"
  else
    "Cannot list tools at current state.  Please initialize the session first"

/-- C1 (counterexample): a request with the unknown method `"foo"`
delivered in state `Uninitialized` — a method outside
`{initialize, ping, notifications/initialized, notifications/cancelled}` —
produces NO outbound message at all: no Error with code -32600 is
emitted (`handle_unsupported` just returns `Ok`). -/
theorem lifecycle_gate_counterexample :
    (Server.handle_message srvUninit none
        (.request ⟨"2.0", .number 9, "foo", none⟩) 0 "t").outbound = [] ∧
    srvUninit.state ≠ .Running ∧
    ("foo" : String) ∉ (["initialize", "ping", "notifications/initialized",
      "notifications/cancelled"] : List String) := by
  refine ⟨rfl, by decide, by decide⟩

/-- C1 (amended): while the state is not `Running` (and no live session
allows the `tools/call` info-log to fire), a request for `tools/list`,
`tools/call` or `logging/setLevel` is answered by the Response-wrapped
state error followed by a JSON-RPC Error with code -32600 echoing the
request id, and no handler runs (state and job table unchanged); a
`shutdown` request is rejected with only the Response-wrapped state error
(no -32600 Error message) and no stop signal; a request for any unknown
method produces no outbound message at all. -/
theorem lifecycle_gate_amended (server : Server.ServerModel)
    (ctx : Option (List (String × String))) (id : RequestId)
    (p : Option Json) (now : Int) (nowStr : String)
    (hstate : server.state ≠ .Running) (hsess : server.sessions = []) :
    (∀ m ∈ (["tools/list", "tools/call", "logging/setLevel"] : List String),
      (Server.handle_message server ctx
          (.request ⟨"2.0", id, m, p⟩) now nowStr).outbound =
        [state_error_message id,
         .error ⟨"2.0", id, ⟨-32600, gate_error_text m, none⟩⟩] ∧
      (Server.handle_message server ctx
          (.request ⟨"2.0", id, m, p⟩) now nowStr).server.state =
        server.state ∧
      (Server.handle_message server ctx
          (.request ⟨"2.0", id, m, p⟩) now nowStr).server.jobs =
        server.jobs ∧
      (Server.handle_message server ctx
          (.request ⟨"2.0", id, m, p⟩) now nowStr).stop = false) ∧
    ((Server.handle_message server ctx
        (.request ⟨"2.0", id, "shutdown", p⟩) now nowStr).outbound =
      [state_error_message id] ∧
     (Server.handle_message server ctx
        (.request ⟨"2.0", id, "shutdown", p⟩) now nowStr).server.state =
      server.state ∧
     (Server.handle_message server ctx
        (.request ⟨"2.0", id, "shutdown", p⟩) now nowStr).server.jobs =
      server.jobs ∧
     (Server.handle_message server ctx
        (.request ⟨"2.0", id, "shutdown", p⟩) now nowStr).stop = false) ∧
    (∀ m, m ∉ (["initialize", "ping", "tools/list", "tools/call",
        "shutdown", "logging/setLevel"] : List String) →
      (Server.handle_message server ctx
          (.request ⟨"2.0", id, m, p⟩) now nowStr).outbound = [] ∧
      (Server.handle_message server ctx
          (.request ⟨"2.0", id, m, p⟩) now nowStr).server.state =
        server.state ∧
      (Server.handle_message server ctx
          (.request ⟨"2.0", id, m, p⟩) now nowStr).server.jobs =
        server.jobs ∧
      (Server.handle_message server ctx
          (.request ⟨"2.0", id, m, p⟩) now nowStr).stop = false) := by
  refine ⟨?_, ?_, ?_⟩
  · intro m hm
    simp only [List.mem_cons, List.mem_singleton, List.not_mem_nil,
      or_false] at hm
    rcases hm with rfl | rfl | rfl <;>
      cases ctx with
      | none =>
        simp [Server.handle_message, Server.check_state, hstate, hsess,
          Server.response_with_error, Server.build_server_error,
          state_error_message, gate_error_text, SessionStore.get_session,
          getAssoc, Server.send_log]
      | some c =>
        cases h : getAssoc c "sessionId" <;>
          simp [Server.handle_message, Server.check_state, hstate, hsess,
            Server.response_with_error, Server.build_server_error,
            state_error_message, gate_error_text, SessionStore.get_session,
            getAssoc, Server.send_log, h]
  · cases ctx with
    | none =>
      simp [Server.handle_message, Server.check_state, hstate,
        state_error_message]
    | some c =>
      cases h : getAssoc c "sessionId" <;>
        simp [Server.handle_message, Server.check_state, hstate,
          state_error_message, h]
  · intro m hm
    simp only [List.mem_cons, List.mem_singleton, List.not_mem_nil,
      or_false, not_or] at hm
    obtain ⟨h1, h2, h3, h4, h5, h6⟩ := hm
    cases ctx with
    | none => simp [Server.handle_message, h1, h2, h3, h4, h5, h6]
    | some c =>
      cases h : getAssoc c "sessionId" <;>
        simp [Server.handle_message, h1, h2, h3, h4, h5, h6, h]

/-- Witness for C1's amended gate: the three gated methods and shutdown in
state `Uninitialized` with an empty session store. -/
theorem lifecycle_gate_amended_witness :
    (Server.handle_message srvUninit none
        (.request ⟨"2.0", .number 9, "tools/list", none⟩) 0 "t").outbound =
      [state_error_message (.number 9),
       .error ⟨"2.0", .number 9,
         ⟨-32600, gate_error_text "tools/list", none⟩⟩] ∧
    (Server.handle_message srvUninit none
        (.request ⟨"2.0", .number 9, "shutdown", none⟩) 0 "t").outbound =
      [state_error_message (.number 9)] := by
  have h := lifecycle_gate_amended srvUninit none (.number 9) none 0 "t"
    (by decide) rfl
  exact ⟨(h.1 "tools/list" (by simp)).1, h.2.1.1⟩

end Mcps
